import Mathlib

/-!
# Verification of the Air Quality Monitor event core

Shallow embedding of `src/AirQuality/main.c` (jgroman/azsphere_air_quality).

Modelling conventions:

* `GPIO_Value` mirrors `GPIO_Value_Type` (`GPIO_Value_Low` / `GPIO_Value_High`).
* `AppState` collects the mutable globals of `main.c`: the measurement
  snapshot (`g_temperature`, `g_humidity`, `g_eco2`, `g_tvoc`), the two
  edge-detector level stores (`g_state_button1`, `g_state_ccs811_int`) and the
  termination flag (`gb_is_termination_requested`).  Observable side effects
  are modelled by two append-only traces: `log` records the format string of
  each `Log_Debug` call, and `sent` records each payload handed to
  `AzureIoT_SendMessage`.
* Temperature and humidity are C `double`s that the program only ever
  consumes through their `%.1f` rendering; they are modelled as integers in
  tenths of a unit (the value as serialized at one decimal).  eCO2 and TVOC
  are C `int16_t`, modelled as `Int`.
* Fallible external collaborators (timer acknowledgement, GPIO reads, the
  CCS811 library calls, `malloc`) are modelled by explicit outcome inputs:
  a `Bool` for calls the code checks as a boolean, an `Option` for reads
  whose failure yields no value.  `hdc1000_get_temp` / `hdc1000_get_humi`
  have no checked failure path in the source, so they are total inputs.
* The cloud-enabled configuration (`IOT_CENTRAL_APPLICATION` or
  `IOT_HUB_APPLICATION` defined) is modelled for the upload path, since the
  upload scheduler's behaviour is compiled out otherwise.
-/

/-- Mirror of `GPIO_Value_Type` (`applibs/gpio.h`): a sampled digital level. -/
inductive GPIO_Value where
  | Low
  | High
deriving DecidableEq, Repr

/-- The mutable globals of `main.c` together with the observable traces.
`log` records `Log_Debug` format strings; `sent` records messages handed to
`AzureIoT_SendMessage`. -/
structure AppState where
  temperature : Int
  humidity : Int
  eco2 : Int
  tvoc : Int
  state_button1 : GPIO_Value
  state_ccs811_int : GPIO_Value
  is_termination_requested : Bool
  log : List String
  sent : List String
deriving DecidableEq, Repr

/-- The statics of `main.c` as zero/default initialized at program start:
`g_state_button1 = g_state_ccs811_int = GPIO_Value_High`,
`gb_is_termination_requested = false`, numeric globals zero. -/
def initial_state : AppState where
  temperature := 0
  humidity := 0
  eco2 := 0
  tvoc := 0
  state_button1 := GPIO_Value.High
  state_ccs811_int := GPIO_Value.High
  is_termination_requested := false
  log := []
  sent := []

/-- `Log_Debug` format string in `button1_press_handler`. -/
def msg_button1_pressed : String := "Button1 pressed.\n"

/-- `Log_Debug` format string for the HDC1000 read in `ccs811_interrupt_handler`. -/
def msg_hdc_read : String := "Temperature [degC]: %f, Humidity [percRH]: %f\n"

/-- `Log_Debug` format string for a failed `ccs811_get_results`. -/
def msg_ccs_read_fail : String := "Could not read measurement from CCS811.\n"

/-- `Log_Debug` format string for a successful `ccs811_get_results`. -/
def msg_ccs_results : String := "CCS811 Sensor: TVOC %d ppb, eCO2 %d ppm\n"

/-- `Log_Debug` format string for a failed button GPIO read. -/
def msg_button_gpio_fail : String := "ERROR: Could not read button GPIO: %s (%d).\n"

/-- `Log_Debug` format string for a failed CCS811 interrupt GPIO read. -/
def msg_int_gpio_fail : String := "ERROR: Could not read CCS811 interrupt GPIO: %s (%d).\n"

/-- `Log_Debug` format string for a failed `malloc` in `azure_upload_handler`. -/
def msg_alloc_fail : String := "ERROR: not enough memory for upload buffer.\n"

/-- `Log_Debug` format string before `AzureIoT_SendMessage`. -/
def msg_uploading : String := "Uploading to Azure: %s\n"

/-- Outcomes of the external calls made during one `ccs811_interrupt_handler`
cycle: the HDC1000 reference read (total, unchecked in the source), the
result of `ccs811_set_environmental_data`, and the result of
`ccs811_get_results` delivering `(tvoc, eco2)` on success. -/
structure CCS811Cycle where
  hdc_temp : Int
  hdc_humi : Int
  set_env_ok : Bool
  get_results : Option (Int × Int)
deriving DecidableEq, Repr

/-- `button1_press_handler` (main.c:286-291): only emits a log message; the
`gb_is_termination_requested = true` line is commented out in the source. -/
def button1_press_handler (s : AppState) : AppState :=
  { s with log := s.log ++ [msg_button1_pressed] }

/-- `ccs811_interrupt_handler` (main.c:293-323): unconditionally store the
HDC1000 reference read into the snapshot, feed it to the CCS811 via
`ccs811_set_environmental_data`; on compensation success read eCO2/TVOC
(failure there sets the termination flag), on compensation failure return
with the snapshot's eCO2/TVOC untouched. -/
def ccs811_interrupt_handler (c : CCS811Cycle) (s : AppState) : AppState :=
  let s1 : AppState :=
    { s with
      temperature := c.hdc_temp
      humidity := c.hdc_humi
      log := s.log ++ [msg_hdc_read] }
  if c.set_env_ok then
    match c.get_results with
    | none =>
        { s1 with
          log := s1.log ++ [msg_ccs_read_fail]
          is_termination_requested := true }
    | some (tvoc, eco2) =>
        { s1 with
          tvoc := tvoc
          eco2 := eco2
          log := s1.log ++ [msg_ccs_results] }
  else
    s1

/-- Outcomes of the external calls made during one
`button_timer_event_handler` invocation: `ConsumeTimerFdEvent` and the
button `GPIO_GetValue` (read level on success). -/
structure ButtonTimerInput where
  consume_ok : Bool
  gpio_read : Option GPIO_Value
deriving DecidableEq, Repr

/-- `button_timer_event_handler` (main.c:383-410): consume the timer event
(failure is fatal), read the button level (failure is fatal), and on an
observed change invoke `button1_press_handler` iff the new level is Low,
then store the new level. -/
def button_timer_event_handler (inp : ButtonTimerInput) (s : AppState) : AppState :=
  if inp.consume_ok = false then
    { s with is_termination_requested := true }
  else
    match inp.gpio_read with
    | none =>
        { s with
          log := s.log ++ [msg_button_gpio_fail]
          is_termination_requested := true }
    | some lvl =>
        if lvl ≠ s.state_button1 then
          let s1 := if lvl = GPIO_Value.Low then button1_press_handler s else s
          { s1 with state_button1 := lvl }
        else
          s

/-- Outcomes of the external calls made during one
`ccs811_int_timer_event_handler` invocation. -/
structure IntTimerInput where
  consume_ok : Bool
  gpio_read : Option GPIO_Value
  cycle : CCS811Cycle
deriving DecidableEq, Repr

/-- `ccs811_int_timer_event_handler` (main.c:412-441): consume the timer
event (failure is fatal), read the /INT level (failure is fatal), and on an
observed change invoke `ccs811_interrupt_handler` iff the new level is Low,
then store the new level. -/
def ccs811_int_timer_event_handler (inp : IntTimerInput) (s : AppState) : AppState :=
  if inp.consume_ok = false then
    { s with is_termination_requested := true }
  else
    match inp.gpio_read with
    | none =>
        { s with
          log := s.log ++ [msg_int_gpio_fail]
          is_termination_requested := true }
    | some lvl =>
        if lvl ≠ s.state_ccs811_int then
          let s1 := if lvl = GPIO_Value.Low then ccs811_interrupt_handler inp.cycle s else s
          { s1 with state_ccs811_int := lvl }
        else
          s

/-- `termination_handler` (main.c:377-381): the SIGTERM handler sets the
termination flag. -/
def termination_handler (s : AppState) : AppState :=
  { s with is_termination_requested := true }

/-- The opening brace character written by the `snprintf` format string. -/
def jsonOpen : Char := Char.ofNat 123

/-- The closing brace character written by the `snprintf` format string. -/
def jsonClose : Char := Char.ofNat 125

/-- Numeric value of an ASCII digit character. -/
def digitVal (c : Char) : Nat := c.toNat - 48

/-- Big-endian decimal digits of a natural number, with explicit fuel so
that the definition computes by structural recursion. -/
def renderNatAux : Nat → Nat → List Char
  | 0, _ => []
  | fuel + 1, n =>
    if n = 0 then [] else renderNatAux fuel (n / 10) ++ [Nat.digitChar (n % 10)]

/-- Decimal rendering of a natural number, as C `printf` `%u` digits. -/
def renderNat (n : Nat) : List Char :=
  if n = 0 then ['0'] else renderNatAux n n

/-- Decimal rendering of an integer, as C `printf` `%d`. -/
def renderInt (i : Int) : List Char :=
  if i < 0 then '-' :: renderNat i.natAbs else renderNat i.natAbs

/-- Rendering of a tenths-valued quantity exactly as C `printf` `%.1f`
prints the corresponding real value: sign, integer part, dot, one digit. -/
def render1dec (t : Int) : List Char :=
  (if t < 0 then ['-'] else []) ++ renderNat (t.natAbs / 10) ++
    ('.' :: [Nat.digitChar (t.natAbs % 10)])

/-- Literal before the eCO2 value in the `snprintf` format (main.c:479). -/
def lit_eco2 : List Char := [jsonOpen, '"', 'e', 'c', 'o', '2', '"', ':', '"']

/-- Literal between the eCO2 and TVOC values (main.c:479). -/
def lit_tvoc : List Char := ['"', ',', ' ', '"', 't', 'v', 'o', 'c', '"', ':', '"']

/-- Literal between the TVOC and temperature values (main.c:479-480). -/
def lit_temp : List Char :=
  ['"', ',', ' ', '"', 't', 'e', 'm', 'p', 'e', 'r', 'a', 't', 'u', 'r', 'e', '"', ':', '"']

/-- Literal between the temperature and humidity values (main.c:480). -/
def lit_humi : List Char :=
  ['"', ',', ' ', '"', 'h', 'u', 'm', 'i', 'd', 'i', 't', 'y', '"', ':', '"']

/-- Closing literal of the payload (main.c:480). -/
def lit_end : List Char := ['"', jsonClose]

/-- The characters produced by the `snprintf` format string of
`azure_upload_handler` (main.c:478-481), before buffer truncation. -/
def payload_chars (s : AppState) : List Char :=
  lit_eco2 ++ renderInt s.eco2 ++ lit_tvoc ++ renderInt s.tvoc ++
    lit_temp ++ render1dec s.temperature ++ lit_humi ++ render1dec s.humidity ++ lit_end

/-- The upload message of `azure_upload_handler`: `snprintf` into a
`JSON_BUFFER_SIZE = 128` byte buffer writes at most 127 characters. -/
def azure_payload (s : AppState) : String :=
  String.mk ((payload_chars s).take 127)

/-- `azure_upload_handler` (main.c:465-490), cloud-enabled configuration:
allocate the buffer (`malloc`); on failure only log, on success format the
payload, log it and hand it to `AzureIoT_SendMessage`. -/
def azure_upload_handler (alloc_ok : Bool) (s : AppState) : AppState :=
  if alloc_ok = false then
    { s with log := s.log ++ [msg_alloc_fail] }
  else
    { s with
      log := s.log ++ [msg_uploading]
      sent := s.sent ++ [azure_payload s] }

/-- Outcomes of the external calls made during one
`upload_timer_event_handler` invocation: `ConsumeTimerFdEvent` and the
`malloc` inside `azure_upload_handler`. -/
structure UploadTimerInput where
  consume_ok : Bool
  alloc_ok : Bool
deriving DecidableEq, Repr

/-- `upload_timer_event_handler` (main.c:443-463): consume the timer event
(failure is fatal and skips the upload), otherwise run
`azure_upload_handler`. -/
def upload_timer_event_handler (inp : UploadTimerInput) (s : AppState) : AppState :=
  if inp.consume_ok = false then
    { s with is_termination_requested := true }
  else
    azure_upload_handler inp.alloc_ok s

/-- Consume an expected literal from the front of a character stream. -/
def expectChars : List Char → List Char → Option (List Char)
  | [], cs => some cs
  | _ :: _, [] => none
  | p :: ps, c :: cs => if c = p then expectChars ps cs else none

/-- Split a character stream at the first non-digit. -/
def takeDigits : List Char → List Char × List Char
  | [] => ([], [])
  | c :: cs =>
    if c.isDigit then
      let r := takeDigits cs
      (c :: r.1, r.2)
    else
      ([], c :: cs)

/-- Parse a nonempty run of decimal digits into a natural number. -/
def parseNat (cs : List Char) : Option (Nat × List Char) :=
  let r := takeDigits cs
  if r.1 = [] then none
  else some (Nat.ofDigits 10 ((r.1.map digitVal).reverse), r.2)

/-- Parse an optionally `-`-signed decimal integer. -/
def parseInt (cs : List Char) : Option (Int × List Char) :=
  match cs with
  | [] => none
  | c :: rest =>
    if c = '-' then (parseNat rest).map fun r => (-(r.1 : Int), r.2)
    else (parseNat (c :: rest)).map fun r => ((r.1 : Int), r.2)

/-- Parse an unsigned 1-decimal fixed-point number into its value in tenths. -/
def parse1decNonneg (cs : List Char) : Option (Int × List Char) := do
  let r ← parseNat cs
  match r.2 with
  | '.' :: d :: rest3 =>
    if d.isDigit then pure (((r.1 * 10 + digitVal d : Nat) : Int), rest3) else none
  | _ => none

/-- Parse an optionally `-`-signed 1-decimal fixed-point number into its
value in tenths. -/
def parse1dec (cs : List Char) : Option (Int × List Char) :=
  match cs with
  | [] => none
  | c :: rest =>
    if c = '-' then (parse1decNonneg rest).map fun r => (-r.1, r.2)
    else parse1decNonneg (c :: rest)

/-- Parser for the upload payload: recovers `(eco2, tvoc, temperature,
humidity)` from a message of exactly the emitted shape. -/
def parsePayload (msg : String) : Option (Int × Int × Int × Int) := do
  let r1 ← expectChars lit_eco2 msg.toList
  let e ← parseInt r1
  let r3 ← expectChars lit_tvoc e.2
  let t ← parseInt r3
  let r5 ← expectChars lit_temp t.2
  let tp ← parse1dec r5
  let r7 ← expectChars lit_humi tp.2
  let hm ← parse1dec r7
  let r9 ← expectChars lit_end hm.2
  if r9 = [] then pure (e.1, t.1, tp.1, hm.1) else none

/-- A timer event as dispatched by the reactor, tagged with the outcomes of
the external calls its handler will make. -/
inductive HandlerEvent where
  | button (inp : ButtonTimerInput)
  | ccsInt (inp : IntTimerInput)
  | upload (inp : UploadTimerInput)
deriving DecidableEq, Repr

/-- Dispatch one ready timer event to its registered handler (the
`EventData.eventHandler` wiring of main.c:174-182). -/
def dispatch_event : HandlerEvent → AppState → AppState
  | .button inp, s => button_timer_event_handler inp s
  | .ccsInt inp, s => ccs811_int_timer_event_handler inp s
  | .upload inp, s => upload_timer_event_handler inp s

/-- Modelled from the spec: `WaitForEventAndCallHandler`
(epoll_timerfd_utilities, not under src/) — one `run_once` call dispatches
each ready source in report order, and a handler that signals fatal (sets
the termination flag) aborts the remaining dispatch for that call.  Returns
the final state and the list of events actually serviced. -/
def run_once : List HandlerEvent → AppState → AppState × List HandlerEvent
  | [], s => (s, [])
  | e :: es, s =>
    if s.is_termination_requested then
      (s, [])
    else
      let r := run_once es (dispatch_event e s)
      (r.1, e :: r.2)

/-- The main program loop (main.c:240-273): while the termination flag is
unset, wait for and dispatch ready timer events; the flag is observed
between iterations.  The list argument supplies the ready-event batches of
successive iterations. -/
def main_loop : List (List HandlerEvent) → AppState → AppState
  | [], s => s
  | es :: rest, s =>
    if s.is_termination_requested then s
    else main_loop rest (run_once es s).1

/-- The resources acquired by `init_handlers` / `init_peripherals` and
released by `close_peripherals_and_handlers`. -/
inductive Resource where
  | epoll
  | uploadTimer
  | i2c
  | hdc1000
  | ccs811
  | ccs811IntGpio
  | oled
  | button1Gpio
  | buttonTimer
  | ccs811IntTimer
deriving DecidableEq, Repr

/-- Acquisition order on the all-success path of `init_handlers`
(main.c:492-528: epoll, upload timer) followed by `init_peripherals`
(main.c:530-659: I2C, HDC1000, CCS811, CCS811 /INT GPIO, OLED, button GPIO,
button poll timer, CCS811 /INT poll timer). -/
def acquisition_order : List Resource :=
  [.epoll, .uploadTimer, .i2c, .hdc1000, .ccs811, .ccs811IntGpio, .oled,
    .button1Gpio, .buttonTimer, .ccs811IntTimer]

/-- Release order of `close_peripherals_and_handlers` (main.c:661-689):
CCS811, HDC1000, I2C fd, CCS811 /INT GPIO fd, button GPIO fd, epoll fd.
The three timer fds and the OLED are not individually released. -/
def release_order : List Resource :=
  [.ccs811, .hdc1000, .i2c, .ccs811IntGpio, .button1Gpio, .epoll]

/-- `close_peripherals_and_handlers` (main.c:661-689): straight-line closes
of `release_order`; a failing close is logged by `CloseFdAndPrintError` and
does not stop the remaining closes.  `close_err` gives each close's
outcome; the result is the list of resources released and the error log. -/
def close_peripherals_and_handlers (close_err : Resource → Bool) :
    List Resource × List String :=
  release_order.foldl
    (fun acc r =>
      (acc.1 ++ [r],
        acc.2 ++ if close_err r then ["ERROR: Could not close fd %s: %s (%d).\n"] else []))
    ([], [])

/-- Run `button_timer_event_handler` over a sequence of successfully
observed button levels (timer acknowledgement and GPIO read succeed on
every poll). -/
def button_polls : AppState → List GPIO_Value → AppState
  | s, [] => s
  | s, l :: ls => button_polls (button_timer_event_handler ⟨true, some l⟩ s) ls

/-- Run `ccs811_int_timer_event_handler` over a sequence of successfully
observed /INT levels, with `c` supplying the sensor outcomes of any
triggered measurement cycle. -/
def ccs_polls : CCS811Cycle → AppState → List GPIO_Value → AppState
  | _, s, [] => s
  | c, s, l :: ls => ccs_polls c (ccs811_int_timer_event_handler ⟨true, some l, c⟩ s) ls

/-- Stated from the spec for comparison with the code: the number of polls
whose observed level differs from the stored state and is `Low` (the stored
state starting at `st` and updating on every observed change). -/
def spec_falling_count : GPIO_Value → List GPIO_Value → Nat
  | _, [] => 0
  | st, l :: ls =>
    (if l ≠ st ∧ l = GPIO_Value.Low then 1 else 0) + spec_falling_count l ls

/-! ## Helper lemmas -/

theorem digitVal_digitChar {d : Nat} (hd : d < 10) : digitVal (Nat.digitChar d) = d := by
  interval_cases d <;> rfl

theorem renderNatAux_eq_digits : ∀ (fuel n : Nat), n ≤ fuel →
    renderNatAux fuel n = (Nat.digits 10 n).reverse.map Nat.digitChar := by
  intro fuel
  induction fuel with
  | zero =>
    intro n hn
    interval_cases n
    simp [renderNatAux]
  | succ f ih =>
    intro n hn
    by_cases h : n = 0
    · subst h
      simp [renderNatAux]
    · unfold renderNatAux
      rw [if_neg h]
      rw [ih (n / 10) (by omega)]
      rw [Nat.digits_def' (by norm_num : (1:Nat) < 10) (Nat.pos_of_ne_zero h)]
      simp

theorem renderNat_eq_digits {n : Nat} (h : n ≠ 0) :
    renderNat n = (Nat.digits 10 n).reverse.map Nat.digitChar := by
  unfold renderNat
  rw [if_neg h]
  exact renderNatAux_eq_digits n n le_rfl

theorem isDigit_digitChar {d : Nat} (hd : d < 10) : (Nat.digitChar d).isDigit = true := by
  interval_cases d <;> rfl

theorem renderNat_isDigit {n : Nat} : ∀ c ∈ renderNat n, c.isDigit = true := by
  intro c hc
  by_cases h : n = 0
  · unfold renderNat at hc
    rw [if_pos h] at hc
    simp only [List.mem_singleton] at hc
    rw [hc]
    rfl
  · rw [renderNat_eq_digits h] at hc
    simp only [List.mem_map, List.mem_reverse] at hc
    obtain ⟨d, hd, rfl⟩ := hc
    exact isDigit_digitChar (Nat.digits_lt_base (by norm_num) hd)

theorem renderNat_ne_nil {n : Nat} : renderNat n ≠ [] := by
  by_cases h : n = 0
  · unfold renderNat
    rw [if_pos h]
    simp
  · rw [renderNat_eq_digits h]
    simp [Nat.digits_ne_nil_iff_ne_zero, h]

theorem takeDigits_append {ds rest : List Char}
    (hds : ∀ c ∈ ds, c.isDigit = true)
    (hrest : ∀ c, rest.head? = some c → c.isDigit = false) :
    takeDigits (ds ++ rest) = (ds, rest) := by
  induction ds with
  | nil =>
    simp only [List.nil_append]
    cases rest with
    | nil => rfl
    | cons c cs =>
      unfold takeDigits
      rw [if_neg]
      simp [hrest c rfl]
  | cons c cs ih =>
    simp only [List.cons_append]
    unfold takeDigits
    rw [if_pos (hds c (List.mem_cons_self c cs))]
    rw [ih (fun x hx => hds x (List.mem_cons_of_mem c hx))]

theorem ofDigits_renderNat (n : Nat) :
    Nat.ofDigits 10 (((renderNat n).map digitVal).reverse) = n := by
  by_cases h : n = 0
  · unfold renderNat
    rw [if_pos h, h]
    simp [Nat.ofDigits, digitVal]
  · rw [renderNat_eq_digits h]
    rw [List.map_reverse, List.map_reverse, List.reverse_reverse, List.map_map]
    have hmap : List.map (digitVal ∘ Nat.digitChar) (Nat.digits 10 n)
        = List.map id (Nat.digits 10 n) :=
      List.map_congr_left (fun d hd => by
        simp only [Function.comp_apply, id_eq]
        exact digitVal_digitChar (Nat.digits_lt_base (by norm_num) hd))
    rw [hmap, List.map_id]
    exact Nat.ofDigits_digits 10 n

theorem parseNat_renderNat (n : Nat) (rest : List Char)
    (hrest : ∀ c, rest.head? = some c → c.isDigit = false) :
    parseNat (renderNat n ++ rest) = some (n, rest) := by
  unfold parseNat
  rw [takeDigits_append renderNat_isDigit hrest]
  simp only []
  rw [if_neg renderNat_ne_nil]
  rw [ofDigits_renderNat]

theorem renderNat_cons (n : Nat) :
    ∃ c cs, renderNat n = c :: cs ∧ c.isDigit = true ∧ c ≠ '-' := by
  cases hr : renderNat n with
  | nil => exact absurd hr renderNat_ne_nil
  | cons c cs =>
    have hdig : c.isDigit = true := renderNat_isDigit c (by rw [hr]; exact List.mem_cons_self c cs)
    refine ⟨c, cs, rfl, hdig, ?_⟩
    intro hc
    rw [hc] at hdig
    exact absurd hdig (by decide)

theorem parseInt_renderInt (i : Int) (rest : List Char)
    (hrest : ∀ c, rest.head? = some c → c.isDigit = false) :
    parseInt (renderInt i ++ rest) = some (i, rest) := by
  unfold renderInt
  by_cases h : i < 0
  · rw [if_pos h]
    simp only [List.cons_append]
    simp only [parseInt]
    rw [if_pos trivial]
    rw [parseNat_renderNat _ _ hrest]
    simp only [Option.map_some']
    have hi : -(i.natAbs : Int) = i := by omega
    rw [hi]
  · rw [if_neg h]
    obtain ⟨c, cs, hcons, hdig, hne⟩ := renderNat_cons i.natAbs
    rw [hcons]
    simp only [List.cons_append]
    simp only [parseInt]
    rw [if_neg hne]
    rw [← List.cons_append, ← hcons, parseNat_renderNat _ _ hrest]
    simp only [Option.map_some']
    have hi : (i.natAbs : Int) = i := by omega
    rw [hi]

theorem parse1decNonneg_renderNat (a : Nat) (rest : List Char) :
    parse1decNonneg (renderNat (a / 10) ++ '.' :: Nat.digitChar (a % 10) :: rest)
      = some ((a : Int), rest) := by
  unfold parse1decNonneg
  rw [parseNat_renderNat (a / 10) ('.' :: Nat.digitChar (a % 10) :: rest)
    (fun c hc => by
      simp only [List.head?_cons, Option.some.injEq] at hc
      rw [← hc]
      rfl)]
  simp only [Option.bind_eq_bind, Option.some_bind]
  rw [if_pos (isDigit_digitChar (Nat.mod_lt a (by norm_num)))]
  rw [digitVal_digitChar (Nat.mod_lt a (by norm_num))]
  have ha : a / 10 * 10 + a % 10 = a := by omega
  rw [ha]
  rfl

theorem parse1dec_render1dec (t : Int) (rest : List Char) :
    parse1dec (render1dec t ++ rest) = some (t, rest) := by
  unfold render1dec
  by_cases h : t < 0
  · rw [if_pos h]
    simp only [List.cons_append, List.nil_append, List.append_assoc]
    simp only [parse1dec]
    rw [if_pos trivial]
    rw [parse1decNonneg_renderNat]
    simp only [Option.map_some']
    have hi : -((t.natAbs : Nat) : Int) = t := by omega
    rw [hi]
  · rw [if_neg h]
    simp only [List.nil_append, List.cons_append, List.append_assoc]
    obtain ⟨c, cs, hcons, hdig, hne⟩ := renderNat_cons (t.natAbs / 10)
    rw [hcons]
    simp only [List.cons_append]
    simp only [parse1dec]
    rw [if_neg hne]
    rw [← List.cons_append, ← hcons]
    rw [parse1decNonneg_renderNat]
    have hi : ((t.natAbs : Nat) : Int) = t := by omega
    rw [hi]

theorem expectChars_append (lit rest : List Char) :
    expectChars lit (lit ++ rest) = some rest := by
  induction lit with
  | nil => rfl
  | cons c cs ih =>
    simp only [List.cons_append]
    unfold expectChars
    rw [if_pos rfl]
    exact ih

theorem parsePayload_roundtrip (s : AppState)
    (h : (payload_chars s).length ≤ 127) :
    parsePayload (azure_payload s)
      = some (s.eco2, s.tvoc, s.temperature, s.humidity) := by
  unfold azure_payload
  rw [List.take_of_length_le h]
  unfold parsePayload
  rw [show (String.mk (payload_chars s)).toList = payload_chars s from rfl]
  unfold payload_chars
  simp only [List.append_assoc]
  rw [expectChars_append]
  simp only [Option.bind_eq_bind, Option.some_bind]
  rw [parseInt_renderInt _ _ (fun c hc => by
    simp only [lit_tvoc, List.cons_append, List.head?_cons, Option.some.injEq] at hc
    rw [← hc]
    rfl)]
  simp only [Option.some_bind]
  rw [expectChars_append]
  simp only [Option.some_bind]
  rw [parseInt_renderInt _ _ (fun c hc => by
    simp only [lit_temp, List.cons_append, List.head?_cons, Option.some.injEq] at hc
    rw [← hc]
    rfl)]
  simp only [Option.some_bind]
  rw [expectChars_append]
  simp only [Option.some_bind]
  rw [parse1dec_render1dec]
  simp only [Option.some_bind]
  rw [expectChars_append]
  simp only [Option.some_bind]
  rw [parse1dec_render1dec]
  simp only [Option.some_bind]
  have hend := expectChars_append lit_end []
  rw [List.append_nil] at hend
  rw [hend]
  simp only [Option.some_bind]
  rw [if_pos trivial]
  rfl

theorem button_step (l : GPIO_Value) (s : AppState) :
    (button_timer_event_handler ⟨true, some l⟩ s).state_button1 = l ∧
    (button_timer_event_handler ⟨true, some l⟩ s).log.count msg_button1_pressed
      = s.log.count msg_button1_pressed
        + (if l ≠ s.state_button1 ∧ l = GPIO_Value.Low then 1 else 0) := by
  by_cases hne : l = s.state_button1
  · simp [button_timer_event_handler, hne]
  · by_cases hlow : l = GPIO_Value.Low
    · subst hlow
      simp [button_timer_event_handler, button1_press_handler, hne,
        List.count_append]
    · simp [button_timer_event_handler, hne, hlow]

theorem button_polls_spec (lvls : List GPIO_Value) : ∀ s : AppState,
    (button_polls s lvls).state_button1 = lvls.getLastD s.state_button1 ∧
    (button_polls s lvls).log.count msg_button1_pressed
      = s.log.count msg_button1_pressed + spec_falling_count s.state_button1 lvls := by
  induction lvls with
  | nil =>
    intro s
    exact ⟨rfl, by simp [button_polls, spec_falling_count]⟩
  | cons l ls ih =>
    intro s
    obtain ⟨hstate, hcount⟩ := button_step l s
    constructor
    · show (button_polls (button_timer_event_handler ⟨true, some l⟩ s) ls).state_button1 = _
      rw [(ih _).1, hstate, List.getLastD_cons]
    · show (button_polls (button_timer_event_handler ⟨true, some l⟩ s) ls).log.count _ = _
      rw [(ih _).2, hcount, hstate]
      simp only [spec_falling_count]
      omega

theorem ccs_step (c : CCS811Cycle) (l : GPIO_Value) (s : AppState) :
    (ccs811_int_timer_event_handler ⟨true, some l, c⟩ s).state_ccs811_int = l ∧
    (ccs811_int_timer_event_handler ⟨true, some l, c⟩ s).log.count msg_hdc_read
      = s.log.count msg_hdc_read
        + (if l ≠ s.state_ccs811_int ∧ l = GPIO_Value.Low then 1 else 0) := by
  have h1 : (msg_ccs_read_fail == msg_hdc_read) = false := by decide
  have h2 : (msg_ccs_results == msg_hdc_read) = false := by decide
  by_cases hne : l = s.state_ccs811_int
  · simp [ccs811_int_timer_event_handler, hne]
  · by_cases hlow : l = GPIO_Value.Low
    · subst hlow
      by_cases hset : c.set_env_ok
      · cases hres : c.get_results with
        | none =>
          simp [ccs811_int_timer_event_handler, ccs811_interrupt_handler, hne,
            hset, hres, List.count_append, List.count_cons, h1]
        | some p =>
          obtain ⟨tv, ec⟩ := p
          simp [ccs811_int_timer_event_handler, ccs811_interrupt_handler, hne,
            hset, hres, List.count_append, List.count_cons, h2]
      · simp [ccs811_int_timer_event_handler, ccs811_interrupt_handler, hne,
          hset, List.count_append]
    · simp [ccs811_int_timer_event_handler, hne, hlow]

theorem ccs_polls_spec (lvls : List GPIO_Value) : ∀ (c : CCS811Cycle) (s : AppState),
    (ccs_polls c s lvls).state_ccs811_int = lvls.getLastD s.state_ccs811_int ∧
    (ccs_polls c s lvls).log.count msg_hdc_read
      = s.log.count msg_hdc_read + spec_falling_count s.state_ccs811_int lvls := by
  induction lvls with
  | nil =>
    intro c s
    exact ⟨rfl, by simp [ccs_polls, spec_falling_count]⟩
  | cons l ls ih =>
    intro c s
    obtain ⟨hstate, hcount⟩ := ccs_step c l s
    constructor
    · show (ccs_polls c (ccs811_int_timer_event_handler ⟨true, some l, c⟩ s) ls).state_ccs811_int = _
      rw [(ih c _).1, hstate, List.getLastD_cons]
    · show (ccs_polls c (ccs811_int_timer_event_handler ⟨true, some l, c⟩ s) ls).log.count _ = _
      rw [(ih c _).2, hcount, hstate]
      simp only [spec_falling_count]
      omega

theorem flag_mono_interrupt (c : CCS811Cycle) (s : AppState)
    (h : s.is_termination_requested = true) :
    (ccs811_interrupt_handler c s).is_termination_requested = true := by
  unfold ccs811_interrupt_handler
  by_cases hset : c.set_env_ok
  · cases hres : c.get_results with
    | none => simp [hset, hres]
    | some p =>
      obtain ⟨tv, ec⟩ := p
      simp [hset, hres, h]
  · simp [hset, h]

theorem flag_mono_button (inp : ButtonTimerInput) (s : AppState)
    (h : s.is_termination_requested = true) :
    (button_timer_event_handler inp s).is_termination_requested = true := by
  unfold button_timer_event_handler button1_press_handler
  obtain ⟨co, gr⟩ := inp
  cases co
  · simp
  · cases gr with
    | none => simp
    | some lvl =>
      by_cases hne : lvl = s.state_button1
      · simp [hne, h]
      · by_cases hlow : lvl = GPIO_Value.Low
        · subst hlow
          simp [hne, h]
        · simp [hne, hlow, h]

theorem flag_mono_ccs (inp : IntTimerInput) (s : AppState)
    (h : s.is_termination_requested = true) :
    (ccs811_int_timer_event_handler inp s).is_termination_requested = true := by
  unfold ccs811_int_timer_event_handler
  obtain ⟨co, gr, c⟩ := inp
  cases co
  · simp
  · cases gr with
    | none => simp
    | some lvl =>
      by_cases hne : lvl = s.state_ccs811_int
      · simp [hne, h]
      · by_cases hlow : lvl = GPIO_Value.Low
        · subst hlow
          simp [hne, h, flag_mono_interrupt c s h]
        · simp [hne, hlow, h]

theorem flag_mono_upload (inp : UploadTimerInput) (s : AppState)
    (h : s.is_termination_requested = true) :
    (upload_timer_event_handler inp s).is_termination_requested = true := by
  unfold upload_timer_event_handler azure_upload_handler
  obtain ⟨co, al⟩ := inp
  cases co
  · simp
  · cases al <;> simp [h]

theorem flag_mono_dispatch (e : HandlerEvent) (s : AppState)
    (h : s.is_termination_requested = true) :
    (dispatch_event e s).is_termination_requested = true := by
  cases e with
  | button inp => exact flag_mono_button inp s h
  | ccsInt inp => exact flag_mono_ccs inp s h
  | upload inp => exact flag_mono_upload inp s h

theorem run_once_flagged (es : List HandlerEvent) (s : AppState)
    (h : s.is_termination_requested = true) :
    run_once es s = (s, []) := by
  cases es with
  | nil => rfl
  | cons e es =>
    unfold run_once
    rw [if_pos h]

theorem main_loop_flagged (batches : List (List HandlerEvent)) (s : AppState)
    (h : s.is_termination_requested = true) :
    main_loop batches s = s := by
  cases batches with
  | nil => rfl
  | cons b bs =>
    unfold main_loop
    rw [if_pos h]

theorem run_once_cons_active (e : HandlerEvent) (es : List HandlerEvent) (s : AppState)
    (h : s.is_termination_requested = false) :
    run_once (e :: es) s
      = ((run_once es (dispatch_event e s)).1,
          e :: (run_once es (dispatch_event e s)).2) := by
  have heq : run_once (e :: es) s
      = if s.is_termination_requested = true then (s, [])
        else ((run_once es (dispatch_event e s)).1,
          e :: (run_once es (dispatch_event e s)).2) := rfl
  rw [heq, if_neg (by simp [h])]

theorem ccs_tick_qualifying (c : CCS811Cycle) (s : AppState)
    (hst : s.state_ccs811_int = GPIO_Value.High) :
    ccs811_int_timer_event_handler ⟨true, some GPIO_Value.Low, c⟩ s
      = { ccs811_interrupt_handler c s with state_ccs811_int := GPIO_Value.Low } := by
  simp [ccs811_int_timer_event_handler, hst]

theorem ccs_tick_rising (c : CCS811Cycle) (s : AppState)
    (hst : s.state_ccs811_int = GPIO_Value.Low) :
    ccs811_int_timer_event_handler ⟨true, some GPIO_Value.High, c⟩ s
      = { s with state_ccs811_int := GPIO_Value.High } := by
  simp [ccs811_int_timer_event_handler, hst]

theorem interrupt_temp_humi (c : CCS811Cycle) (s : AppState) :
    (ccs811_interrupt_handler c s).temperature = c.hdc_temp ∧
    (ccs811_interrupt_handler c s).humidity = c.hdc_humi := by
  unfold ccs811_interrupt_handler
  by_cases hset : c.set_env_ok
  · cases hres : c.get_results with
    | none => simp [hset, hres]
    | some p =>
      obtain ⟨tv, ec⟩ := p
      simp [hset, hres]
  · simp [hset]

theorem interrupt_frame (c : CCS811Cycle) (s : AppState) :
    (c.set_env_ok = false →
      (ccs811_interrupt_handler c s).eco2 = s.eco2 ∧
      (ccs811_interrupt_handler c s).tvoc = s.tvoc ∧
      (ccs811_interrupt_handler c s).is_termination_requested
        = s.is_termination_requested) ∧
    (((ccs811_interrupt_handler c s).eco2 ≠ s.eco2 ∨
      (ccs811_interrupt_handler c s).tvoc ≠ s.tvoc) →
      c.set_env_ok = true ∧ c.get_results.isSome = true) := by
  unfold ccs811_interrupt_handler
  by_cases hset : c.set_env_ok
  · cases hres : c.get_results with
    | none => simp [hset, hres]
    | some p =>
      obtain ⟨tv, ec⟩ := p
      simp [hset, hres]
  · simp [hset]

/-! ## Claim theorems -/

/-- C1: both level-polling edge detectors (the button instance and the
data-ready instance) start in state `High`, invoke their edge callback
exactly once for each poll whose observed level differs from the stored
state and is `Low` (no callback on an unchanged level or on a Low-to-High
transition), and track the last observed level; on the poll sequence
[High, High, Low, Low, High, Low] exactly two falling-edge callbacks fire,
at positions 3 and 6.  Callback invocations are counted through the log
entries the callbacks emit. -/
theorem C1_edge_detector_falling_edges :
    (initial_state.state_button1 = GPIO_Value.High ∧
      initial_state.state_ccs811_int = GPIO_Value.High) ∧
    (∀ (lvls : List GPIO_Value) (s : AppState),
      (button_polls s lvls).log.count msg_button1_pressed
        = s.log.count msg_button1_pressed + spec_falling_count s.state_button1 lvls ∧
      (button_polls s lvls).state_button1 = lvls.getLastD s.state_button1) ∧
    (∀ (lvls : List GPIO_Value) (c : CCS811Cycle) (s : AppState),
      (ccs_polls c s lvls).log.count msg_hdc_read
        = s.log.count msg_hdc_read + spec_falling_count s.state_ccs811_int lvls ∧
      (ccs_polls c s lvls).state_ccs811_int = lvls.getLastD s.state_ccs811_int) ∧
    ((button_polls initial_state
        [GPIO_Value.High, GPIO_Value.High]).log.count msg_button1_pressed = 0 ∧
      (button_polls initial_state
        [GPIO_Value.High, GPIO_Value.High,
          GPIO_Value.Low]).log.count msg_button1_pressed = 1 ∧
      (button_polls initial_state
        [GPIO_Value.High, GPIO_Value.High, GPIO_Value.Low, GPIO_Value.Low,
          GPIO_Value.High]).log.count msg_button1_pressed = 1 ∧
      (button_polls initial_state
        [GPIO_Value.High, GPIO_Value.High, GPIO_Value.Low, GPIO_Value.Low,
          GPIO_Value.High, GPIO_Value.Low]).log.count msg_button1_pressed = 2) := by
  refine ⟨⟨rfl, rfl⟩, ?_, ?_, by decide, by decide, by decide, by decide⟩
  · intro lvls s
    exact ⟨(button_polls_spec lvls s).2, (button_polls_spec lvls s).1⟩
  · intro lvls c s
    exact ⟨(ccs_polls_spec lvls c s).2, (ccs_polls_spec lvls c s).1⟩

/-- C2: on a qualifying data-ready edge, a failing compensation write
(`ccs811_set_environmental_data`) leaves the snapshot's eCO2 and TVOC
fields identical to their pre-cycle values, and those fields change only in
a cycle in which both the compensation write and the subsequent air-quality
read succeeded (the reference read has no failure path). -/
theorem C2_compensation_write_failure_frame :
    ∀ (c : CCS811Cycle) (s : AppState),
      s.state_ccs811_int = GPIO_Value.High →
      (c.set_env_ok = false →
        (ccs811_int_timer_event_handler ⟨true, some GPIO_Value.Low, c⟩ s).eco2 = s.eco2 ∧
        (ccs811_int_timer_event_handler ⟨true, some GPIO_Value.Low, c⟩ s).tvoc = s.tvoc) ∧
      (((ccs811_int_timer_event_handler ⟨true, some GPIO_Value.Low, c⟩ s).eco2 ≠ s.eco2 ∨
        (ccs811_int_timer_event_handler ⟨true, some GPIO_Value.Low, c⟩ s).tvoc ≠ s.tvoc) →
        c.set_env_ok = true ∧ c.get_results.isSome = true) := by
  intro c s hst
  rw [ccs_tick_qualifying c s hst]
  have h := interrupt_frame c s
  constructor
  · intro hset
    exact ⟨(h.1 hset).1, (h.1 hset).2.1⟩
  · intro hchange
    exact h.2 hchange

/-- C2 witness. -/
theorem C2_witness :
    (ccs811_int_timer_event_handler
        ⟨true, some GPIO_Value.Low, ⟨205, 480, false, none⟩⟩
        { initial_state with eco2 := 7, tvoc := 9 }).eco2 = 7 ∧
    (ccs811_int_timer_event_handler
        ⟨true, some GPIO_Value.Low, ⟨205, 480, false, none⟩⟩
        { initial_state with eco2 := 7, tvoc := 9 }).tvoc = 9 := by
  have h := (C2_compensation_write_failure_frame ⟨205, 480, false, none⟩
      { initial_state with eco2 := 7, tvoc := 9 } rfl).1 rfl
  exact ⟨by rw [h.1], by rw [h.2]⟩

/-- C3: a compensation-write failure is non-fatal — it leaves the
termination flag unset and the cycle is retried on the next qualifying edge
(the retried cycle again stores the fresh reference values) — whereas a
failing air-quality read after a successful compensation write sets the
termination flag and the main loop performs no further iterations. -/
theorem C3_compensation_nonfatal_read_failure_fatal :
    ∀ (c c2 : CCS811Cycle) (s : AppState),
      s.is_termination_requested = false →
      s.state_ccs811_int = GPIO_Value.High →
      (c.set_env_ok = false →
        (ccs811_int_timer_event_handler ⟨true, some GPIO_Value.Low, c⟩ s).is_termination_requested
            = false ∧
        (ccs811_int_timer_event_handler ⟨true, some GPIO_Value.Low, c2⟩
            (ccs811_int_timer_event_handler ⟨true, some GPIO_Value.High, c⟩
              (ccs811_int_timer_event_handler ⟨true, some GPIO_Value.Low, c⟩ s))).temperature
            = c2.hdc_temp ∧
        (ccs811_int_timer_event_handler ⟨true, some GPIO_Value.Low, c2⟩
            (ccs811_int_timer_event_handler ⟨true, some GPIO_Value.High, c⟩
              (ccs811_int_timer_event_handler ⟨true, some GPIO_Value.Low, c⟩ s))).humidity
            = c2.hdc_humi) ∧
      (c.set_env_ok = true → c.get_results = none →
        (ccs811_int_timer_event_handler ⟨true, some GPIO_Value.Low, c⟩ s).is_termination_requested
            = true ∧
        ∀ batches, main_loop batches
            (ccs811_int_timer_event_handler ⟨true, some GPIO_Value.Low, c⟩ s)
          = ccs811_int_timer_event_handler ⟨true, some GPIO_Value.Low, c⟩ s) := by
  intro c c2 s hflag hst
  constructor
  · intro hset
    have h1 : ccs811_int_timer_event_handler ⟨true, some GPIO_Value.Low, c⟩ s
        = { ccs811_interrupt_handler c s with state_ccs811_int := GPIO_Value.Low } :=
      ccs_tick_qualifying c s hst
    have hint := (interrupt_frame c s).1 hset
    refine ⟨?_, ?_, ?_⟩
    · rw [h1]
      show (ccs811_interrupt_handler c s).is_termination_requested = false
      rw [hint.2.2, hflag]
    · rw [h1, ccs_tick_rising c _ rfl, ccs_tick_qualifying c2 _ rfl]
      exact (interrupt_temp_humi c2 _).1
    · rw [h1, ccs_tick_rising c _ rfl, ccs_tick_qualifying c2 _ rfl]
      exact (interrupt_temp_humi c2 _).2
  · intro hset hres
    have h1 : ccs811_int_timer_event_handler ⟨true, some GPIO_Value.Low, c⟩ s
        = { ccs811_interrupt_handler c s with state_ccs811_int := GPIO_Value.Low } :=
      ccs_tick_qualifying c s hst
    have hfatal : (ccs811_int_timer_event_handler
        ⟨true, some GPIO_Value.Low, c⟩ s).is_termination_requested = true := by
      rw [h1]
      show (ccs811_interrupt_handler c s).is_termination_requested = true
      unfold ccs811_interrupt_handler
      simp [hset, hres]
    exact ⟨hfatal, fun batches => main_loop_flagged batches _ hfatal⟩

/-- C3 witness. -/
theorem C3_witness :
    (ccs811_int_timer_event_handler
        ⟨true, some GPIO_Value.Low, ⟨1, 2, false, none⟩⟩
        initial_state).is_termination_requested = false ∧
    (ccs811_int_timer_event_handler
        ⟨true, some GPIO_Value.Low, ⟨1, 2, true, none⟩⟩
        initial_state).is_termination_requested = true := by
  have h1 := (C3_compensation_nonfatal_read_failure_fatal
      ⟨1, 2, false, none⟩ ⟨3, 4, true, some (5, 6)⟩ initial_state rfl rfl).1 rfl
  have h2 := (C3_compensation_nonfatal_read_failure_fatal
      ⟨1, 2, true, none⟩ ⟨3, 4, true, some (5, 6)⟩ initial_state rfl rfl).2 rfl rfl
  exact ⟨h1.1, h2.1⟩

/-- C4 counterexample: at the snapshot (612, 134, 22.5, 45.0) the emitted
payload is not the claimed exact string — the `snprintf` format separates
the fields with a comma and a space, which the claimed shape omits. -/
theorem C4_counterexample :
    azure_payload
        { initial_state with eco2 := 612, tvoc := 134, temperature := 225, humidity := 450 }
      ≠ "\x7b\"eco2\":\"612\",\"tvoc\":\"134\",\"temperature\":\"22.5\",\"humidity\":\"45.0\"\x7d" := by
  decide

/-- C4 (amended): on every upload tick the serialized payload is the string
`\x7b"eco2":"<int>", "tvoc":"<int>", "temperature":"<1-decimal>",
"humidity":"<1-decimal>"\x7d` — with a comma-space separator between
fields — built from the values current at tick time, and, whenever the
formatted payload fits the 128-byte buffer, parsing the emitted string
recovers exactly those values. -/
theorem C4_payload_shape_and_roundtrip :
    (∀ s : AppState, (payload_chars s).length ≤ 127 →
      parsePayload (azure_payload s)
        = some (s.eco2, s.tvoc, s.temperature, s.humidity)) ∧
    azure_payload
        { initial_state with eco2 := 612, tvoc := 134, temperature := 225, humidity := 450 }
      = "\x7b\"eco2\":\"612\", \"tvoc\":\"134\", \"temperature\":\"22.5\", \"humidity\":\"45.0\"\x7d" :=
  ⟨parsePayload_roundtrip, by decide⟩

/-- C4 witness. -/
theorem C4_witness :
    (payload_chars
        { initial_state with eco2 := 612, tvoc := 134, temperature := 225, humidity := 450 }).length
      ≤ 127 ∧
    parsePayload (azure_payload
        { initial_state with eco2 := 612, tvoc := 134, temperature := 225, humidity := 450 })
      = some (612, 134, 225, 450) := by
  refine ⟨by decide, ?_⟩
  exact C4_payload_shape_and_roundtrip.1
    { initial_state with eco2 := 612, tvoc := 134, temperature := 225, humidity := 450 }
    (by decide)

/-- C5 counterexample: an upload tick whose timer acknowledgment succeeds
but whose buffer allocation (`malloc`) fails hands no message to the
messaging collaborator — the tick is not fatal, but nothing is sent. -/
theorem C5_counterexample :
    (upload_timer_event_handler ⟨true, false⟩ initial_state).sent = [] ∧
    (upload_timer_event_handler ⟨true, false⟩ initial_state).is_termination_requested = false ∧
    (upload_timer_event_handler ⟨true, false⟩ initial_state).log = [msg_alloc_fail] := by
  decide

/-- C5 (amended): on every upload tick whose timer acknowledgment and
upload-buffer allocation both succeed, an upload message built from the
current snapshot is handed to the messaging collaborator — including when
the snapshot has never been populated, in which case the message carries
the zero initial values rather than the tick being skipped. -/
theorem C5_upload_tick_always_sends :
    (∀ s : AppState,
      upload_timer_event_handler ⟨true, true⟩ s
        = { s with
            log := s.log ++ [msg_uploading]
            sent := s.sent ++ [azure_payload s] }) ∧
    (upload_timer_event_handler ⟨true, true⟩ initial_state).sent
      = ["\x7b\"eco2\":\"0\", \"tvoc\":\"0\", \"temperature\":\"0.0\", \"humidity\":\"0.0\"\x7d"] := by
  constructor
  · intro s
    rfl
  · decide

/-- C6: if a handler dispatched by `run_once` signals a fatal condition
(sets the termination flag), the flag is set at the end of that same
`run_once` call, the remaining ready events of that call are not serviced
(the serviced list ends exactly at the fatal handler), and the main loop
performs no further iterations. -/
theorem C6_fatal_handler_aborts_dispatch :
    ∀ (pre : List HandlerEvent) (e : HandlerEvent) (post : List HandlerEvent) (s : AppState),
      s.is_termination_requested = false →
      (run_once pre s).1.is_termination_requested = false →
      (dispatch_event e (run_once pre s).1).is_termination_requested = true →
      (run_once (pre ++ e :: post) s).1.is_termination_requested = true ∧
      (run_once (pre ++ e :: post) s).2 = pre ++ [e] ∧
      (∀ batches, main_loop batches (run_once (pre ++ e :: post) s).1
        = (run_once (pre ++ e :: post) s).1) := by
  intro pre
  induction pre with
  | nil =>
    intro e post s h0 _ hd
    have hd' : (dispatch_event e s).is_termination_requested = true := hd
    have hrun : run_once (e :: post) s
        = ((dispatch_event e s), [e]) := by
      rw [run_once_cons_active e post s h0, run_once_flagged post _ hd']
    refine ⟨?_, ?_, ?_⟩
    · rw [List.nil_append, hrun]
      exact hd'
    · rw [List.nil_append, hrun]
      simp
    · intro batches
      rw [List.nil_append, hrun]
      exact main_loop_flagged batches _ hd'
  | cons p pre' ih =>
    intro e post s h0 h1 hd
    have hps : (dispatch_event p s).is_termination_requested = false := by
      cases hb : (dispatch_event p s).is_termination_requested with
      | false => rfl
      | true =>
        rw [run_once_cons_active p pre' s h0, run_once_flagged pre' _ hb] at h1
        rw [hb] at h1
        exact absurd h1 (by simp)
    have h1' : (run_once pre' (dispatch_event p s)).1.is_termination_requested = false := by
      rw [run_once_cons_active p pre' s h0] at h1
      exact h1
    have hd' : (dispatch_event e
        (run_once pre' (dispatch_event p s)).1).is_termination_requested = true := by
      rw [run_once_cons_active p pre' s h0] at hd
      exact hd
    obtain ⟨ha, hb2, hc⟩ := ih e post (dispatch_event p s) hps h1' hd'
    have hcons : run_once ((p :: pre') ++ e :: post) s
        = ((run_once (pre' ++ e :: post) (dispatch_event p s)).1,
            p :: (run_once (pre' ++ e :: post) (dispatch_event p s)).2) := by
      rw [List.cons_append]
      exact run_once_cons_active p (pre' ++ e :: post) s h0
    refine ⟨?_, ?_, ?_⟩
    · rw [hcons]
      exact ha
    · rw [hcons]
      simp only [hb2, List.cons_append]
    · intro batches
      rw [hcons]
      exact hc batches

/-- C6 witness. -/
theorem C6_witness :
    (run_once [HandlerEvent.button ⟨false, none⟩] initial_state).1.is_termination_requested
      = true ∧
    (run_once [HandlerEvent.button ⟨false, none⟩] initial_state).2
      = [HandlerEvent.button ⟨false, none⟩] := by
  have h := C6_fatal_handler_aborts_dispatch [] (HandlerEvent.button ⟨false, none⟩) []
    initial_state rfl rfl (by decide)
  exact ⟨h.1, by simpa using h.2.1⟩

/-- C7: the termination flag is monotone — the signal handler sets it, no
handler dispatch, `run_once` call or main-loop step clears it once set —
and the dispatch loop services nothing and exits once it observes the
flag. -/
theorem C7_termination_flag_monotone :
    (∀ s : AppState, (termination_handler s).is_termination_requested = true) ∧
    (∀ (e : HandlerEvent) (s : AppState), s.is_termination_requested = true →
      (dispatch_event e s).is_termination_requested = true) ∧
    (∀ (es : List HandlerEvent) (s : AppState), s.is_termination_requested = true →
      run_once es s = (s, [])) ∧
    (∀ (batches : List (List HandlerEvent)) (s : AppState),
      s.is_termination_requested = true → main_loop batches s = s) :=
  ⟨fun _ => rfl, flag_mono_dispatch, run_once_flagged, main_loop_flagged⟩

/-- C7 witness. -/
theorem C7_witness :
    (termination_handler initial_state).is_termination_requested = true ∧
    (dispatch_event (HandlerEvent.upload ⟨true, true⟩)
        (termination_handler initial_state)).is_termination_requested = true ∧
    run_once [HandlerEvent.upload ⟨true, true⟩] (termination_handler initial_state)
      = (termination_handler initial_state, []) ∧
    main_loop [[HandlerEvent.upload ⟨true, true⟩]] (termination_handler initial_state)
      = termination_handler initial_state := by
  refine ⟨C7_termination_flag_monotone.1 initial_state, ?_, ?_, ?_⟩
  · exact C7_termination_flag_monotone.2.1 _ _ rfl
  · exact C7_termination_flag_monotone.2.2.1 _ _ rfl
  · exact C7_termination_flag_monotone.2.2.2 _ _ rfl

/-- C8 counterexample: the shutdown sequence neither releases every
acquired resource (none of the three created timer sources is closed) nor
follows strict reverse-acquisition order. -/
theorem C8_counterexample :
    release_order ≠ acquisition_order.reverse ∧
    Resource.uploadTimer ∈ acquisition_order ∧
    Resource.uploadTimer ∉ release_order ∧
    Resource.buttonTimer ∈ acquisition_order ∧
    Resource.buttonTimer ∉ release_order ∧
    Resource.ccs811IntTimer ∈ acquisition_order ∧
    Resource.ccs811IntTimer ∉ release_order := by
  decide

/-- C8 (amended): at shutdown, `close_peripherals_and_handlers` always
releases exactly the CCS811 sensor, the HDC1000 sensor, the I2C fd, the
CCS811-interrupt GPIO fd, the button GPIO fd and the epoll fd, in that
fixed order (not reverse-acquisition order), regardless of individual
release errors (which are logged, not escalated); every released resource
was acquired during initialization, but the three timer fds and the OLED
are not individually released. -/
theorem C8_shutdown_release_order :
    (∀ close_err : Resource → Bool,
      (close_peripherals_and_handlers close_err).1 = release_order) ∧
    (∀ r, r ∈ release_order → r ∈ acquisition_order) := by
  constructor
  · intro close_err
    have hgen : ∀ (l : List Resource) (acc : List Resource × List String),
        (l.foldl (fun acc r =>
          (acc.1 ++ [r],
            acc.2 ++ if close_err r
              then ["ERROR: Could not close fd %s: %s (%d).\n"] else [])) acc).1
          = acc.1 ++ l := by
      intro l
      induction l with
      | nil =>
        intro acc
        simp
      | cons r rs ih =>
        intro acc
        simp only [List.foldl_cons]
        rw [ih]
        simp
    have h := hgen release_order ([], [])
    simpa [close_peripherals_and_handlers] using h
  · intro r hr
    fin_cases hr <;> decide

/-- C8 witness. -/
theorem C8_witness :
    (close_peripherals_and_handlers (fun _ => true)).1 = release_order ∧
    Resource.ccs811 ∈ acquisition_order := by
  exact ⟨C8_shutdown_release_order.1 _,
    C8_shutdown_release_order.2 Resource.ccs811 (by decide)⟩

/-- C9: a falling edge on the button line invokes a handler that only
emits a log message — the measurement snapshot, the termination flag, the
data-ready detector state and the sent-message trace are unchanged; only
the button's stored level (and the log) change. -/
theorem C9_button_press_frame :
    ∀ (inp : ButtonTimerInput) (s : AppState),
      inp.consume_ok = true →
      inp.gpio_read = some GPIO_Value.Low →
      s.state_button1 = GPIO_Value.High →
      (button_timer_event_handler inp s).temperature = s.temperature ∧
      (button_timer_event_handler inp s).humidity = s.humidity ∧
      (button_timer_event_handler inp s).eco2 = s.eco2 ∧
      (button_timer_event_handler inp s).tvoc = s.tvoc ∧
      (button_timer_event_handler inp s).is_termination_requested
        = s.is_termination_requested ∧
      (button_timer_event_handler inp s).state_ccs811_int = s.state_ccs811_int ∧
      (button_timer_event_handler inp s).sent = s.sent ∧
      (button_timer_event_handler inp s).state_button1 = GPIO_Value.Low ∧
      (button_timer_event_handler inp s).log = s.log ++ [msg_button1_pressed] := by
  intro inp s hco hgr hst
  simp [button_timer_event_handler, button1_press_handler, hco, hgr, hst]

/-- C9 witness. -/
theorem C9_witness :
    (button_timer_event_handler ⟨true, some GPIO_Value.Low⟩ initial_state).eco2
      = initial_state.eco2 ∧
    (button_timer_event_handler ⟨true, some GPIO_Value.Low⟩ initial_state).is_termination_requested
      = initial_state.is_termination_requested ∧
    (button_timer_event_handler ⟨true, some GPIO_Value.Low⟩ initial_state).state_button1
      = GPIO_Value.Low := by
  obtain ⟨-, -, h3, -, h5, -, -, h8, -⟩ :=
    C9_button_press_frame ⟨true, some GPIO_Value.Low⟩ initial_state rfl rfl rfl
  exact ⟨h3, h5, h8⟩

/-- C10: the snapshot's temperature and humidity are unconditionally
overwritten with the reference sensor's values in every measurement cycle —
the reference read has no checked failure path — including on a qualifying
data-ready edge whose compensation write subsequently fails. -/
theorem C10_reference_read_unconditional :
    ∀ (c : CCS811Cycle) (s : AppState),
      ((ccs811_interrupt_handler c s).temperature = c.hdc_temp ∧
        (ccs811_interrupt_handler c s).humidity = c.hdc_humi) ∧
      (s.state_ccs811_int = GPIO_Value.High →
        (ccs811_int_timer_event_handler ⟨true, some GPIO_Value.Low, c⟩ s).temperature
          = c.hdc_temp ∧
        (ccs811_int_timer_event_handler ⟨true, some GPIO_Value.Low, c⟩ s).humidity
          = c.hdc_humi) := by
  intro c s
  refine ⟨interrupt_temp_humi c s, ?_⟩
  intro hst
  rw [ccs_tick_qualifying c s hst]
  exact ⟨(interrupt_temp_humi c s).1, (interrupt_temp_humi c s).2⟩

/-- C10 witness: a cycle whose compensation write fails still stores the
fresh reference values. -/
theorem C10_witness :
    (ccs811_interrupt_handler ⟨123, 456, false, none⟩ initial_state).temperature = 123 ∧
    (ccs811_int_timer_event_handler
        ⟨true, some GPIO_Value.Low, ⟨123, 456, false, none⟩⟩ initial_state).humidity = 456 := by
  have h := C10_reference_read_unconditional ⟨123, 456, false, none⟩ initial_state
  exact ⟨h.1.1, (h.2 rfl).2⟩
